import Mathlib

/-!
Shallow embedding of the MySkoda Home Assistant integration
(`custom_components/myskoda/sensor.py` and
`custom_components/myskoda/config_flow.py`).

Python property accessors become Lean functions over an explicit vehicle
snapshot.  A Python attribute access on a possibly-`None` object is modelled
with `Except PyErr`: accessing an attribute of `none` yields
`Except.error PyErr.attributeError`, exactly as CPython raises
`AttributeError`.  Accessors that guard every optional link are total and
return `Option`.
-/

namespace MySkoda

/-- the Python method lower() of str on the ASCII strings used here: lowercase every
character -/
def pyLower (s : String) : String :=
  String.mk (s.data.map Char.toLower)

/-- the Python exception raised by an attribute access on `None` -/
inductive PyErr
  | attributeError
deriving DecidableEq, Repr

/-- embedding of `myskoda.models.info.CapabilityId` (external library enum); only the
members this integration names are modelled -/
inductive CapabilityId
  | CHARGING
  | VEHICLE_HEALTH_INSPECTION
  | STATE
deriving DecidableEq, Repr

namespace charging

/-- Modelled from the spec: the external enum `myskoda.models.charging.ChargingState`
(cable-connected / ready / conserving / charging); its Python `str()` form is the
uppercase snake-case member name, whose lowercase form is the fixed
option set. -/
inductive ChargingState
  | CONNECT_CABLE
  | READY_FOR_CHARGING
  | CONSERVING
  | CHARGING
deriving DecidableEq, Repr

/-- Python `str()` of a `ChargingState` member -/
def ChargingState.str : ChargingState → String
  | .CONNECT_CABLE => "CONNECT_CABLE"
  | .READY_FOR_CHARGING => "READY_FOR_CHARGING"
  | .CONSERVING => "CONSERVING"
  | .CHARGING => "CHARGING"

/-- Modelled from the spec: the external enum for AC/DC charge type; its Python
`str()` form compares equal to the plain strings "AC" / "DC". -/
inductive ChargeType
  | AC
  | DC
deriving DecidableEq, Repr

/-- Python `str()` of a `ChargeType` member -/
def ChargeType.str : ChargeType → String
  | .AC => "AC"
  | .DC => "DC"

end charging

/-- embedding of `myskoda.models.charging` battery record -/
structure Battery where
  state_of_charge_in_percent : Int
  remaining_cruising_range_in_meters : Int
deriving DecidableEq, Repr

/-- embedding of `myskoda.models.charging.ChargingStatus` -/
structure ChargingStatus where
  battery : Battery
  charge_power_in_kw : Int
  charge_type : charging.ChargeType
  state : Option charging.ChargingState
  remaining_time_to_fully_charged_in_minutes : Int
deriving DecidableEq, Repr

/-- charging settings record -/
structure Settings where
  target_state_of_charge_in_percent : Int
deriving DecidableEq, Repr

/-- embedding of `myskoda.models.charging.Charging` -/
structure Charging where
  status : Option ChargingStatus
  settings : Settings
deriving DecidableEq, Repr

/-- vehicle info record (software version) -/
structure Info where
  software_version : String
deriving DecidableEq, Repr

/-- maintenance report record -/
structure MaintenanceReport where
  inspection_due_in_days : Int
deriving DecidableEq, Repr

/-- maintenance record wrapping an optional report -/
structure Maintenance where
  maintenance_report : Option MaintenanceReport
deriving DecidableEq, Repr

/-- health record (mileage) -/
structure Health where
  mileage_in_km : Int
deriving DecidableEq, Repr

/-- VehicleSnapshot: per the data model of the spec, every sub-record is optional
(capability not supported / not yet fetched) -/
structure Vehicle where
  info : Option Info
  charging : Option Charging
  maintenance : Option Maintenance
  health : Option Health
deriving DecidableEq, Repr

/-- Modelled from the spec: `MySkodaEntity.available` (entity.py is not under
src/); a sensor is available iff the capability set of the vehicle contains every
required capability. -/
def capability_available (required : List CapabilityId) (caps : List CapabilityId) : Bool :=
  required.all (fun c => caps.contains c)

namespace ChargingSensor

/-- embedding of `ChargingSensor._charging`: `if charging := self.vehicle.charging: return charging` -/
def _charging (v : Vehicle) : Option Charging :=
  v.charging

/-- embedding of `ChargingSensor._status`: guarded chain through `charging` then `status` -/
def _status (v : Vehicle) : Option ChargingStatus :=
  match _charging v with
  | some c => c.status
  | none => none

/-- embedding of `ChargingSensor.required_capabilities` -/
def required_capabilities : List CapabilityId :=
  [CapabilityId.CHARGING]

/-- availability inherited by every `ChargingSensor` subclass that does not
override it: the base capability check applied to `required_capabilities` -/
def available (caps : List CapabilityId) : Bool :=
  capability_available required_capabilities caps

end ChargingSensor

namespace SoftwareVersion

/-- embedding of `SoftwareVersion.native_value`: `return self.vehicle.info.software_version`,
an unguarded attribute access on the optional `info` record -/
def native_value (v : Vehicle) : Except PyErr String :=
  match v.info with
  | none => Except.error PyErr.attributeError
  | some info => Except.ok info.software_version

end SoftwareVersion

namespace InspectionInterval

/-- embedding of `InspectionInterval.native_value`: unguarded access
`self.vehicle.maintenance.maintenance_report`, then a guarded read of
`inspection_due_in_days` -/
def native_value (v : Vehicle) : Except PyErr (Option Int) :=
  match v.maintenance with
  | none => Except.error PyErr.attributeError
  | some m =>
    match m.maintenance_report with
    | some report => Except.ok (some report.inspection_due_in_days)
    | none => Except.ok none

end InspectionInterval

namespace BatteryPercentage

/-- embedding of `BatteryPercentage.available`: overridden in the source to `return True`
unconditionally, ignoring the capability set -/
def available (_caps : List CapabilityId) : Bool :=
  true

/-- embedding of `BatteryPercentage.native_value`: guarded read of
`status.battery.state_of_charge_in_percent` -/
def native_value (v : Vehicle) : Option Int :=
  match ChargingSensor._status v with
  | some status => some status.battery.state_of_charge_in_percent
  | none => none

/-- embedding of `BatteryPercentage.icon`: descending ten-point threshold chain over the
percentage, then the charging / static overlay on the suffix -/
def icon (v : Vehicle) : String :=
  match ChargingSensor._status v with
  | none => "mdi:battery-outline"
  | some status =>
    let p := status.battery.state_of_charge_in_percent
    let suffix :=
      if p ≥ 95 then "100"
      else if p ≥ 85 then "90"
      else if p ≥ 75 then "80"
      else if p ≥ 65 then "70"
      else if p ≥ 55 then "60"
      else if p ≥ 45 then "50"
      else if p ≥ 35 then "40"
      else if p ≥ 25 then "30"
      else if p ≥ 15 then "20"
      else if p ≥ 5 then "10"
      else "outline"
    if status.state ≠ some charging.ChargingState.CONNECT_CABLE then
      "mdi:battery-charging-" ++ suffix
    else if suffix = "100" then
      "mdi:battery"
    else
      "mdi:battery-" ++ suffix

end BatteryPercentage

namespace ChargingPower

/-- embedding of `ChargingPower.available`: inherited from `ChargingSensor` -/
def available (caps : List CapabilityId) : Bool :=
  ChargingSensor.available caps

/-- embedding of `ChargingPower.native_value`: guarded pass-through of `charge_power_in_kw` -/
def native_value (v : Vehicle) : Option Int :=
  match ChargingSensor._status v with
  | some status => some status.charge_power_in_kw
  | none => none

end ChargingPower

namespace RemainingDistance

/-- embedding of `RemainingDistance.available`: inherited from `ChargingSensor` -/
def available (caps : List CapabilityId) : Bool :=
  ChargingSensor.available caps

/-- embedding of `RemainingDistance.native_value`: guarded
`status.battery.remaining_cruising_range_in_meters / 1000`; Python true
division is modelled exactly over the rationals -/
def native_value (v : Vehicle) : Option ℚ :=
  match ChargingSensor._status v with
  | some status => some ((status.battery.remaining_cruising_range_in_meters : ℚ) / 1000)
  | none => none

end RemainingDistance

namespace TargetBatteryPercentage

/-- embedding of `TargetBatteryPercentage.available`: inherited from `ChargingSensor` -/
def available (caps : List CapabilityId) : Bool :=
  ChargingSensor.available caps

/-- embedding of `TargetBatteryPercentage.native_value`: guarded read of
`charging.settings.target_state_of_charge_in_percent` -/
def native_value (v : Vehicle) : Option Int :=
  match ChargingSensor._charging v with
  | some c => some c.settings.target_state_of_charge_in_percent
  | none => none

end TargetBatteryPercentage

namespace ChargeType

/-- embedding of `ChargeType.available`: inherited from `ChargingSensor` -/
def available (caps : List CapabilityId) : Bool :=
  ChargingSensor.available caps

/-- embedding of `ChargeType.native_value`: guarded `str(status.charge_type).lower()` -/
def native_value (v : Vehicle) : Option String :=
  match ChargingSensor._status v with
  | some status => some (pyLower (charging.ChargeType.str status.charge_type))
  | none => none

/-- embedding of `ChargeType.icon`: CCS2 plug icon for DC, type-2 plug icon otherwise -/
def icon (v : Vehicle) : String :=
  match ChargingSensor._status v with
  | some status =>
    if charging.ChargeType.str status.charge_type = "DC" then "mdi:ev-plug-ccs2"
    else "mdi:ev-plug-type2"
  | none => "mdi:ev-plug-type2"

end ChargeType

namespace ChargingState

/-- embedding of `ChargingState.available`: inherited from `ChargingSensor` -/
def available (caps : List CapabilityId) : Bool :=
  ChargingSensor.available caps

/-- embedding of `ChargingState._attr_options`: the fixed option set (lower_snake_case) -/
def _attr_options : List String :=
  ["connect_cable", "ready_for_charging", "conserving", "charging"]

/-- embedding of `ChargingState.native_value`: guarded `str(status.state).lower()` -/
def native_value (v : Vehicle) : Option String :=
  match ChargingSensor._status v with
  | some status =>
    match status.state with
    | some st => some (pyLower (charging.ChargingState.str st))
    | none => none
  | none => none

/-- embedding of `ChargingState.icon`: unplugged icon for `CONNECT_CABLE`, charging icon for
`CHARGING`, default plug icon otherwise -/
def icon (v : Vehicle) : String :=
  match ChargingSensor._status v with
  | some status =>
    if status.state = some charging.ChargingState.CONNECT_CABLE then "mdi:power-plug-off"
    else if status.state = some charging.ChargingState.CHARGING then "mdi:power-plug-battery"
    else "mdi:power-plug"
  | none => "mdi:power-plug"

end ChargingState

namespace RemainingChargingTime

/-- embedding of `RemainingChargingTime.available`: inherited from `ChargingSensor` -/
def available (caps : List CapabilityId) : Bool :=
  ChargingSensor.available caps

/-- embedding of `RemainingChargingTime.native_value`: guarded pass-through of
`remaining_time_to_fully_charged_in_minutes` -/
def native_value (v : Vehicle) : Option Int :=
  match ChargingSensor._status v with
  | some status => some status.remaining_time_to_fully_charged_in_minutes
  | none => none

end RemainingChargingTime

/-- the credentials the user submits (`email`, `password` keys of the schema) -/
structure Credentials where
  email : String
  password : String
deriving DecidableEq, Repr

/-- outcome of the single `hub.connect(email, password)` call inside
`validate_input`.  `CannotConnect` is declared in config_flow.py as a direct
`HomeAssistantError` subclass and `AuthorizationFailedError` comes from the
external library, so the two exception classes are disjoint and the
`except` chain catches each outcome in exactly one clause. -/
inductive ConnectOutcome
  | success
  | raiseCannotConnect
  | raiseAuthorizationFailed
  | raiseOther
deriving DecidableEq, Repr

/-- a stored config entry of the entry registry of the host -/
structure ConfigEntry where
  entry_id : Nat
  data : Credentials
deriving DecidableEq, Repr

/-- result value a config-flow step hands back to the host.  `noResult` is the
implicit Python `None` of a function body that falls off its end. -/
inductive FlowResult
  | createEntry (title : String) (data : Credentials)
  | showForm (step_id : String)
  | showFormWithErrors (step_id : String) (base : String)
  | updateReloadAndAbort (entry_id : Nat) (data : Credentials)
  | noResult
deriving DecidableEq, Repr

/-- embedding of `ConfigFlow.async_step_user`: show the empty form when no input, otherwise
run `validate_input` and classify the outcome through the `except` chain;
on no exception, create the entry titled with the e-mail. -/
def async_step_user (user_input : Option Credentials) (outcome : ConnectOutcome) : FlowResult :=
  match user_input with
  | none => FlowResult.showForm ("user")
  | some input =>
    match outcome with
    | ConnectOutcome.raiseCannotConnect => FlowResult.showFormWithErrors ("user") ("cannot_connect")
    | ConnectOutcome.raiseAuthorizationFailed => FlowResult.showFormWithErrors ("user") ("invalid_auth")
    | ConnectOutcome.raiseOther => FlowResult.showFormWithErrors ("user") ("unknown")
    | ConnectOutcome.success => FlowResult.createEntry input.email input

/-- flow-local state of the reauth path: the entry being reauthorized and the
flow-local `_data` mapping shown in the form -/
structure ReauthFlowState where
  reauth_entry : ConfigEntry
  _data : Credentials
deriving DecidableEq, Repr

/-- embedding of `ConfigFlow._async_step_reauth_confirm`: show the form when no input;
otherwise copy the new password into the flow-local `_data`, run
`validate_input`, and on success update-reload-abort the reauth entry.  On
every exception the `except` clause fills `errors` but the function body ends
right after the `try` block, so the step returns Python `None`. -/
def _async_step_reauth_confirm (st : ReauthFlowState) (user_input : Option Credentials)
    (outcome : ConnectOutcome) : ReauthFlowState × FlowResult :=
  match user_input with
  | none => (st, FlowResult.showForm ("reauth_confirm"))
  | some input =>
    let st2 : ReauthFlowState :=
      { st with _data := { st._data with password := input.password } }
    match outcome with
    | ConnectOutcome.raiseCannotConnect => (st2, FlowResult.noResult)
    | ConnectOutcome.raiseAuthorizationFailed => (st2, FlowResult.noResult)
    | ConnectOutcome.raiseOther => (st2, FlowResult.noResult)
    | ConnectOutcome.success => (st2, FlowResult.updateReloadAndAbort st2.reauth_entry.entry_id input)

/-- Modelled from the spec: the host function `async_update_reload_and_abort` updates
the stored data of the named entry in place (no entry is created or removed); every
other flow result leaves the entry registry untouched. -/
def apply_flow_result (entries : List ConfigEntry) (r : FlowResult) : List ConfigEntry :=
  match r with
  | FlowResult.updateReloadAndAbort id data =>
    entries.map (fun e => if e.entry_id = id then { e with data := data } else e)
  | _ => entries

/-- the ten-point bucket of a battery percentage as the spec words it:
≥ 95 is the "100" bucket, each following bucket covers a ten-point band
(85–94 → "90", …, 5–14 → "10"), below 5 is "outline" -/
def bucket_spec (p : Int) : String :=
  if 95 ≤ p then "100"
  else if 85 ≤ p ∧ p < 95 then "90"
  else if 75 ≤ p ∧ p < 85 then "80"
  else if 65 ≤ p ∧ p < 75 then "70"
  else if 55 ≤ p ∧ p < 65 then "60"
  else if 45 ≤ p ∧ p < 55 then "50"
  else if 35 ≤ p ∧ p < 45 then "40"
  else if 25 ≤ p ∧ p < 35 then "30"
  else if 15 ≤ p ∧ p < 25 then "20"
  else if 5 ≤ p ∧ p < 15 then "10"
  else "outline"

/-- the battery icon as the spec words it: the bucket suffix with a "charging"
overlay when the state is not cable-connected, otherwise the static battery
icon, the cable-connected "100" bucket collapsing to plain `mdi:battery` -/
def icon_spec (status : ChargingStatus) : String :=
  let suffix := bucket_spec status.battery.state_of_charge_in_percent
  if status.state ≠ some charging.ChargingState.CONNECT_CABLE then
    "mdi:battery-charging-" ++ suffix
  else if suffix = "100" then
    "mdi:battery"
  else
    "mdi:battery-" ++ suffix

/-- a snapshot with every sub-record absent -/
def bare_vehicle : Vehicle :=
  { info := none, charging := none, maintenance := none, health := none }

/-- a charging status with the given percentage, range and state -/
def mk_status (p : Int) (range_m : Int) (st : Option charging.ChargingState) : ChargingStatus :=
  { battery := { state_of_charge_in_percent := p, remaining_cruising_range_in_meters := range_m }
    charge_power_in_kw := 11
    charge_type := charging.ChargeType.AC
    state := st
    remaining_time_to_fully_charged_in_minutes := 30 }

/-- a snapshot whose charging record carries the given status -/
def mk_vehicle (status : Option ChargingStatus) : Vehicle :=
  { info := none
    charging := some { status := status, settings := { target_state_of_charge_in_percent := 80 } }
    maintenance := none
    health := none }

/-- a stored entry undergoing reauth -/
def sample_entry : ConfigEntry :=
  { entry_id := 1, data := { email := "user@example.org", password := "old-secret" } }

/-- the reauth flow state for `sample_entry` -/
def sample_flow : ReauthFlowState :=
  { reauth_entry := sample_entry, _data := sample_entry.data }

/-- a reauth submission carrying a new password -/
def new_input : Credentials :=
  { email := "user@example.org", password := "new-secret" }

/-- whether a string is a syntactically valid icon reference, i.e. carries the
"mdi:" scheme in front -/
def is_mdi_icon (s : String) : Bool :=
  "mdi:".data.isPrefixOf s.data

/-! theorems settling the claims -/

/-- the descending threshold chain of the source computes exactly the interval-style
ten-point bucket -/
theorem suffix_chain_eq_bucket_spec (p : Int) :
    (if p ≥ 95 then "100"
     else if p ≥ 85 then "90"
     else if p ≥ 75 then "80"
     else if p ≥ 65 then "70"
     else if p ≥ 55 then "60"
     else if p ≥ 45 then "50"
     else if p ≥ 35 then "40"
     else if p ≥ 25 then "30"
     else if p ≥ 15 then "20"
     else if p ≥ 5 then "10"
     else "outline") = bucket_spec p := by
  unfold bucket_spec
  by_cases h1 : 95 ≤ p
  · simp [ge_iff_le, h1]
  by_cases h2 : 85 ≤ p
  · simp [ge_iff_le, h1, h2, show p < 95 by omega]
  by_cases h3 : 75 ≤ p
  · simp [ge_iff_le, h1, h2, h3, show p < 85 by omega]
  by_cases h4 : 65 ≤ p
  · simp [ge_iff_le, h1, h2, h3, h4, show p < 75 by omega]
  by_cases h5 : 55 ≤ p
  · simp [ge_iff_le, h1, h2, h3, h4, h5, show p < 65 by omega]
  by_cases h6 : 45 ≤ p
  · simp [ge_iff_le, h1, h2, h3, h4, h5, h6, show p < 55 by omega]
  by_cases h7 : 35 ≤ p
  · simp [ge_iff_le, h1, h2, h3, h4, h5, h6, h7, show p < 45 by omega]
  by_cases h8 : 25 ≤ p
  · simp [ge_iff_le, h1, h2, h3, h4, h5, h6, h7, h8, show p < 35 by omega]
  by_cases h9 : 15 ≤ p
  · simp [ge_iff_le, h1, h2, h3, h4, h5, h6, h7, h8, h9, show p < 25 by omega]
  by_cases h10 : 5 ≤ p
  · simp [ge_iff_le, h1, h2, h3, h4, h5, h6, h7, h8, h9, h10, show p < 15 by omega]
  simp [ge_iff_le, h1, h2, h3, h4, h5, h6, h7, h8, h9, h10]

/-- the threshold chain only ever produces one of the eleven bucket names -/
theorem suffix_chain_mem (p : Int) :
    (if p ≥ 95 then "100"
     else if p ≥ 85 then "90"
     else if p ≥ 75 then "80"
     else if p ≥ 65 then "70"
     else if p ≥ 55 then "60"
     else if p ≥ 45 then "50"
     else if p ≥ 35 then "40"
     else if p ≥ 25 then "30"
     else if p ≥ 15 then "20"
     else if p ≥ 5 then "10"
     else "outline")
      ∈ ["100", "90", "80", "70", "60", "50", "40", "30", "20", "10", "outline"] := by
  by_cases h1 : 95 ≤ p
  · simp [ge_iff_le, h1]
  by_cases h2 : 85 ≤ p
  · simp [ge_iff_le, h1, h2]
  by_cases h3 : 75 ≤ p
  · simp [ge_iff_le, h1, h2, h3]
  by_cases h4 : 65 ≤ p
  · simp [ge_iff_le, h1, h2, h3, h4]
  by_cases h5 : 55 ≤ p
  · simp [ge_iff_le, h1, h2, h3, h4, h5]
  by_cases h6 : 45 ≤ p
  · simp [ge_iff_le, h1, h2, h3, h4, h5, h6]
  by_cases h7 : 35 ≤ p
  · simp [ge_iff_le, h1, h2, h3, h4, h5, h6, h7]
  by_cases h8 : 25 ≤ p
  · simp [ge_iff_le, h1, h2, h3, h4, h5, h6, h7, h8]
  by_cases h9 : 15 ≤ p
  · simp [ge_iff_le, h1, h2, h3, h4, h5, h6, h7, h8, h9]
  by_cases h10 : 5 ≤ p
  · simp [ge_iff_le, h1, h2, h3, h4, h5, h6, h7, h8, h9, h10]
  simp [ge_iff_le, h1, h2, h3, h4, h5, h6, h7, h8, h9, h10]

/-- the battery overlay yields an "mdi:"-prefixed string for every bucket name -/
theorem battery_overlay_is_mdi (st : Option charging.ChargingState) (suf : String)
    (h : suf ∈ ["100", "90", "80", "70", "60", "50", "40", "30", "20", "10", "outline"]) :
    is_mdi_icon
      (if st ≠ some charging.ChargingState.CONNECT_CABLE then "mdi:battery-charging-" ++ suf
       else if suf = "100" then "mdi:battery"
       else "mdi:battery-" ++ suf) = true := by
  fin_cases h <;> split <;> decide

/-- C1: with the info record absent, `SoftwareVersion.native_value` raises
`AttributeError` instead of returning no value, and with the maintenance
record absent, `InspectionInterval.native_value` does the same — the code
violates the never-raise invariant of the spec at these two sensors. -/
theorem C1_missing_record_raises_attribute_error :
    SoftwareVersion.native_value bare_vehicle = Except.error PyErr.attributeError ∧
    InspectionInterval.native_value bare_vehicle = Except.error PyErr.attributeError := by
  constructor <;> rfl

/-- C2 counterexample: the empty capability set lacks `CHARGING`, yet the
`ChargingSensor`-derived `BatteryPercentage` still reports available, so not
every `ChargingSensor`-derived sensor is unavailable without `CHARGING`. -/
theorem C2_battery_percentage_available_without_charging :
    ([] : List CapabilityId).contains CapabilityId.CHARGING = false ∧
    BatteryPercentage.available [] = true := by
  constructor <;> rfl

/-- C2 (amended): for every capability set lacking `CHARGING`, every
`ChargingSensor`-derived sensor except `BatteryPercentage` — `ChargingPower`,
`RemainingDistance`, `TargetBatteryPercentage`, `ChargeType`, `ChargingState`
and `RemainingChargingTime` — reports unavailable. -/
theorem C2_charging_sensors_unavailable_without_capability (caps : List CapabilityId)
    (h : caps.contains CapabilityId.CHARGING = false) :
    ChargingPower.available caps = false ∧
    RemainingDistance.available caps = false ∧
    TargetBatteryPercentage.available caps = false ∧
    ChargeType.available caps = false ∧
    ChargingState.available caps = false ∧
    RemainingChargingTime.available caps = false := by
  have hmem : CapabilityId.CHARGING ∉ caps := by simpa using h
  have hbase : ChargingSensor.available caps = false := by
    simp [ChargingSensor.available, capability_available, ChargingSensor.required_capabilities, hmem]
  exact ⟨hbase, hbase, hbase, hbase, hbase, hbase⟩

/-- C2 witness: the empty capability set lacks `CHARGING` and all six
non-exempt charging sensors are unavailable on it. -/
theorem C2_charging_sensors_unavailable_witness :
    ChargingPower.available [] = false ∧
    RemainingDistance.available [] = false ∧
    TargetBatteryPercentage.available [] = false ∧
    ChargeType.available [] = false ∧
    ChargingState.available [] = false ∧
    RemainingChargingTime.available [] = false :=
  C2_charging_sensors_unavailable_without_capability [] (by rfl)

/-- C10: `BatteryPercentage.available` returns `True` for every capability
set, including one lacking `CHARGING`: the sensor is exempt from the
capability-gated availability check. -/
theorem C10_battery_percentage_always_available (caps : List CapabilityId) :
    BatteryPercentage.available caps = true := by
  rfl

/-- C5: each connect outcome is classified into exactly one error code —
`CannotConnect` to "cannot_connect", `AuthorizationFailedError` to
"invalid_auth" (never "cannot_connect"), any other exception to "unknown" —
and on no exception the flow creates the entry titled with the e-mail. -/
theorem C5_user_step_classifies_outcomes (input : Credentials) :
    async_step_user (some input) ConnectOutcome.raiseCannotConnect
      = FlowResult.showFormWithErrors ("user") ("cannot_connect") ∧
    async_step_user (some input) ConnectOutcome.raiseAuthorizationFailed
      = FlowResult.showFormWithErrors ("user") ("invalid_auth") ∧
    async_step_user (some input) ConnectOutcome.raiseAuthorizationFailed
      ≠ FlowResult.showFormWithErrors ("user") ("cannot_connect") ∧
    async_step_user (some input) ConnectOutcome.raiseOther
      = FlowResult.showFormWithErrors ("user") ("unknown") ∧
    async_step_user (some input) ConnectOutcome.success
      = FlowResult.createEntry input.email input := by
  refine ⟨rfl, rfl, ?_, rfl, rfl⟩
  simp [async_step_user]

/-- C6: on a reauth submission whose validation fails with `CannotConnect`,
the code returns Python `None` instead of re-displaying the form with the
"cannot_connect" error code (the entry registry is indeed left unchanged, and
the success path does update the entry in place), so the re-display half of
the claim fails on the code. -/
theorem C6_reauth_failure_returns_no_form :
    (_async_step_reauth_confirm sample_flow (some new_input)
        ConnectOutcome.raiseCannotConnect).2 = FlowResult.noResult ∧
    (_async_step_reauth_confirm sample_flow (some new_input)
        ConnectOutcome.raiseCannotConnect).2
      ≠ FlowResult.showFormWithErrors ("reauth_confirm") ("cannot_connect") ∧
    apply_flow_result [sample_entry]
        (_async_step_reauth_confirm sample_flow (some new_input)
          ConnectOutcome.raiseCannotConnect).2 = [sample_entry] ∧
    (_async_step_reauth_confirm sample_flow (some new_input)
        ConnectOutcome.success).2 = FlowResult.updateReloadAndAbort 1 new_input ∧
    apply_flow_result [sample_entry]
        (_async_step_reauth_confirm sample_flow (some new_input)
          ConnectOutcome.success).2 = [{ entry_id := 1, data := new_input }] := by
  refine ⟨rfl, ?_, rfl, rfl, ?_⟩
  · decide
  · decide

/-- C4: whenever the charging record or its status is absent,
`BatteryPercentage.native_value` returns no value and
`BatteryPercentage.icon` returns the outline variant. -/
theorem C4_battery_absent_value_and_icon (v : Vehicle)
    (h : v.charging = none ∨ ∃ c, v.charging = some c ∧ c.status = none) :
    BatteryPercentage.native_value v = none ∧
    BatteryPercentage.icon v = "mdi:battery-outline" := by
  have hst : ChargingSensor._status v = none := by
    rcases h with h | ⟨c, hc, hs⟩
    · simp [ChargingSensor._status, ChargingSensor._charging, h]
    · simp [ChargingSensor._status, ChargingSensor._charging, hc, hs]
  constructor
  · simp [BatteryPercentage.native_value, hst]
  · simp [BatteryPercentage.icon, hst]

/-- C4 witness: on the all-absent snapshot the battery sensor yields no value
and the outline icon. -/
theorem C4_battery_absent_witness :
    BatteryPercentage.native_value bare_vehicle = none ∧
    BatteryPercentage.icon bare_vehicle = "mdi:battery-outline" :=
  C4_battery_absent_value_and_icon bare_vehicle (Or.inl rfl)

/-- C7: with a present charging status, `RemainingDistance.native_value` is
the remaining cruising range in meters divided by 1000; in particular 123000
meters map to 123 kilometers. -/
theorem C7_remaining_distance_is_km (v : Vehicle) (c : Charging) (s : ChargingStatus)
    (hc : v.charging = some c) (hs : c.status = some s) :
    RemainingDistance.native_value v
      = some ((s.battery.remaining_cruising_range_in_meters : ℚ) / 1000) ∧
    (s.battery.remaining_cruising_range_in_meters = 123000 →
      RemainingDistance.native_value v = some 123) := by
  have hst : ChargingSensor._status v = some s := by
    simp [ChargingSensor._status, ChargingSensor._charging, hc, hs]
  constructor
  · simp [RemainingDistance.native_value, hst]
  · intro h123
    simp [RemainingDistance.native_value, hst, h123]
    norm_num

/-- C7 witness: a snapshot with 123000 m of range reports 123 km. -/
theorem C7_remaining_distance_witness :
    RemainingDistance.native_value (mk_vehicle (some (mk_status 50 123000 none))) = some 123 :=
  (C7_remaining_distance_is_km (mk_vehicle (some (mk_status 50 123000 none)))
    _ _ rfl rfl).2 rfl

/-- C8: with a present charging status carrying an enumerated state,
`ChargingState.native_value` is the lowercase string of that state, a member
of the fixed option set, and `ChargingState.icon` is the unplugged icon for
cable-connected, the charging icon for charging, and the default otherwise. -/
theorem C8_charging_state_value_and_icon (v : Vehicle) (c : Charging) (s : ChargingStatus)
    (st : charging.ChargingState)
    (hc : v.charging = some c) (hs : c.status = some s) (hstate : s.state = some st) :
    ChargingState.native_value v = some (pyLower (charging.ChargingState.str st)) ∧
    pyLower (charging.ChargingState.str st) ∈ ChargingState._attr_options ∧
    ChargingState.icon v =
      (if st = charging.ChargingState.CONNECT_CABLE then "mdi:power-plug-off"
       else if st = charging.ChargingState.CHARGING then "mdi:power-plug-battery"
       else "mdi:power-plug") := by
  have hst2 : ChargingSensor._status v = some s := by
    simp [ChargingSensor._status, ChargingSensor._charging, hc, hs]
  refine ⟨?_, ?_, ?_⟩
  · simp [ChargingState.native_value, hst2, hstate]
  · cases st <;> decide
  · cases st <;> simp [ChargingState.icon, hst2, hstate]

/-- C8 witness: a conserving state reports the lowercase value "conserving",
inside the option set, with the default plug icon. -/
theorem C8_charging_state_witness :
    ChargingState.native_value
        (mk_vehicle (some (mk_status 50 1000 (some charging.ChargingState.CONSERVING))))
      = some (pyLower (charging.ChargingState.str charging.ChargingState.CONSERVING)) ∧
    pyLower (charging.ChargingState.str charging.ChargingState.CONSERVING)
      ∈ ChargingState._attr_options ∧
    ChargingState.icon
        (mk_vehicle (some (mk_status 50 1000 (some charging.ChargingState.CONSERVING))))
      = (if charging.ChargingState.CONSERVING = charging.ChargingState.CONNECT_CABLE
          then "mdi:power-plug-off"
         else if charging.ChargingState.CONSERVING = charging.ChargingState.CHARGING
          then "mdi:power-plug-battery"
         else "mdi:power-plug") :=
  C8_charging_state_value_and_icon _ _ _ charging.ChargingState.CONSERVING rfl rfl rfl

/-- C3: with a present charging status, `BatteryPercentage.icon` bands the
percentage into the ten-point buckets of the spec (95 → "100", 94 → "90",
4 → "outline") and applies the charging overlay when the state is not
cable-connected, otherwise the static battery icon, the cable-connected
"100" bucket collapsing to plain `mdi:battery`. -/
theorem C3_battery_icon_banding (v : Vehicle) (c : Charging) (s : ChargingStatus)
    (hc : v.charging = some c) (hs : c.status = some s) :
    BatteryPercentage.icon v = icon_spec s ∧
    bucket_spec 95 = "100" ∧ bucket_spec 94 = "90" ∧ bucket_spec 4 = "outline" := by
  have hst : ChargingSensor._status v = some s := by
    simp [ChargingSensor._status, ChargingSensor._charging, hc, hs]
  refine ⟨?_, by decide, by decide, by decide⟩
  simp only [BatteryPercentage.icon, icon_spec, hst]
  rw [suffix_chain_eq_bucket_spec]

/-- C3 witness: a cable-connected snapshot at 95 percent gets the icon the
spec-side description computes (the plain full-battery icon). -/
theorem C3_battery_icon_banding_witness :
    BatteryPercentage.icon
        (mk_vehicle (some (mk_status 95 1000 (some charging.ChargingState.CONNECT_CABLE))))
      = icon_spec (mk_status 95 1000 (some charging.ChargingState.CONNECT_CABLE)) ∧
    bucket_spec 95 = "100" ∧ bucket_spec 94 = "90" ∧ bucket_spec 4 = "outline" :=
  C3_battery_icon_banding _ _ _ rfl rfl

/-- C9: the three dynamic icon functions are total and always return an
"mdi:"-prefixed icon reference, and with no charging data they fall back to
the outline / neutral icons. -/
theorem C9_icon_functions_total_and_mdi (v : Vehicle) :
    is_mdi_icon (BatteryPercentage.icon v) = true ∧
    is_mdi_icon (ChargeType.icon v) = true ∧
    is_mdi_icon (ChargingState.icon v) = true ∧
    (v.charging = none →
      BatteryPercentage.icon v = "mdi:battery-outline" ∧
      ChargeType.icon v = "mdi:ev-plug-type2" ∧
      ChargingState.icon v = "mdi:power-plug") := by
  refine ⟨?_, ?_, ?_, ?_⟩
  · cases hst : ChargingSensor._status v with
    | none =>
      simp only [BatteryPercentage.icon, hst]
      decide
    | some s =>
      simp only [BatteryPercentage.icon, hst]
      exact battery_overlay_is_mdi s.state _ (suffix_chain_mem s.battery.state_of_charge_in_percent)
  · cases hst : ChargingSensor._status v with
    | none =>
      simp only [ChargeType.icon, hst]
      decide
    | some s =>
      simp only [ChargeType.icon, hst]
      split <;> decide
  · cases hst : ChargingSensor._status v with
    | none =>
      simp only [ChargingState.icon, hst]
      decide
    | some s =>
      simp only [ChargingState.icon, hst]
      split
      · decide
      · split <;> decide
  · intro hnone
    have hst : ChargingSensor._status v = none := by
      simp [ChargingSensor._status, ChargingSensor._charging, hnone]
    exact ⟨by simp [BatteryPercentage.icon, hst], by simp [ChargeType.icon, hst],
      by simp [ChargingState.icon, hst]⟩

/-- C9 witness: on the all-absent snapshot all three icons are valid "mdi:"
references and equal the fallback icons. -/
theorem C9_icon_functions_witness :
    is_mdi_icon (BatteryPercentage.icon bare_vehicle) = true ∧
    is_mdi_icon (ChargeType.icon bare_vehicle) = true ∧
    is_mdi_icon (ChargingState.icon bare_vehicle) = true ∧
    (BatteryPercentage.icon bare_vehicle = "mdi:battery-outline" ∧
     ChargeType.icon bare_vehicle = "mdi:ev-plug-type2" ∧
     ChargingState.icon bare_vehicle = "mdi:power-plug") := by
  obtain ⟨a, b, c, d⟩ := C9_icon_functions_total_and_mdi bare_vehicle
  exact ⟨a, b, c, d rfl⟩

end MySkoda
